import Mathlib

/-!
Shallow embedding of the monitoring layer of `joomcode/nativelink`
(files `nativelink-scheduler/src/worker_scheduler.rs` and
`nativelink-service/src/monitoring_server.rs`) together with proofs about
the monitoring routes.

Modelling conventions:
* `WorkerId` and `OperationId` are opaque identifiers whose `to_string` is
  the identity; they are embedded as `String`.
* Timestamps (`SystemTime` values already measured in seconds since the
  Unix epoch) are embedded as `Nat`; `Duration::as_secs` likewise.
* `nativelink_error::Error` is embedded as its textual description
  (a `String`); `err_tip` appends the context message.
* A Rust panic (an `unwrap()` of `None`) is the `panicked` outcome of
  `RunResult`; fallible calls that return `Result` use the `err` outcome.
* The collaborators (`WorkerScheduler`, `ClientStateManager`) are modelled
  as records holding the point-in-time answer each monitoring-relevant
  query would produce; the lazy operation stream is the list of its
  elements in yield order.
-/

namespace nativelink_scheduler

/-- Embeds `WorkerInfo` from `worker_scheduler.rs` (lines 26-36):
information about a worker for monitoring purposes. -/
structure WorkerInfo where
  platform_properties : List (String × String)
  last_update_timestamp : Nat
  is_paused : Bool
  is_draining : Bool
  can_accept_work : Bool
  running_operations : List String
  connected_timestamp : Nat
  actions_completed : Nat

/-- Embeds the `WorkerScheduler` trait of `worker_scheduler.rs`, restricted
to the query the monitoring layer consumes: `get_all_workers_info` returns
a snapshot of `(WorkerId, WorkerInfo)` pairs or an error. -/
structure WorkerScheduler where
  get_all_workers_info : Except String (List (String × WorkerInfo))

end nativelink_scheduler

/-- Modelled from the spec: `ActionStage` (data model section) is one of
CacheCheck, Queued, Executing and the Completed variants; the type itself
lives in `nativelink-util`, outside the given sources. -/
inductive ActionStage where
  | CacheCheck
  | Queued
  | Executing
  | CompletedSuccess
  | CompletedFailure
deriving DecidableEq

/-- Modelled from the spec: the Completed variants are the terminal
("finished") stages, every other stage is "not finished". -/
def ActionStage.is_finished : ActionStage → Bool
  | .CompletedSuccess => true
  | .CompletedFailure => true
  | _ => false

/-- Modelled from the spec: the debug rendering `format!("\x7b:?\x7d", stage)`
used by the monitoring layer prints the variant name. -/
def ActionStage.debugRepr : ActionStage → String
  | .CacheCheck => "CacheCheck"
  | .Queued => "Queued"
  | .Executing => "Executing"
  | .CompletedSuccess => "CompletedSuccess"
  | .CompletedFailure => "CompletedFailure"

/-- Modelled from the spec: the current-state view of an operation handle
(stage, owner, digest, timestamps, and the client operation id naming the
operation's identity); `ActionState` lives in `nativelink-util`, outside
the given sources. -/
structure ActionState where
  client_operation_id : String
  stage : ActionStage
  worker_id : Option String
  action_digest : String
  load_timestamp : Nat
  insert_timestamp : Nat

/-- Modelled from the spec: the static-info view of an operation handle
(command/input digests, priority, timeout, required capabilities, load and
insert timestamps); `ActionInfo` lives outside the given sources. -/
structure ActionInfo where
  command_digest : String
  input_root_digest : String
  priority : Int
  timeout : Nat
  platform_properties : List (String × String)
  load_timestamp : Nat
  insert_timestamp : Nat

/-- Modelled from the spec: a result handle yielded by `filter_operations`,
exposing the two independently retrievable (and independently fallible)
views `as_state` and `as_action_info`. -/
structure ActionStateResult where
  as_state : Except String ActionState
  as_action_info : Except String ActionInfo

/-- Modelled from the spec: the stage mask of an `OperationFilter`
(a subset of stages, or "any"); the type lives outside the given sources. -/
inductive OperationStageFlags where
  | CacheCheck
  | Queued
  | Executing
  | Completed
  | Any
deriving DecidableEq

/-- Modelled from the spec: `OperationFilter` carries a stage mask, an
optional owning worker and a result-count limit; the type lives outside
the given sources. -/
structure OperationFilter where
  stages : OperationStageFlags
  worker_id : Option String
  limit : Option Nat

/-- Modelled from the spec: `OperationFilter::default()` filters nothing —
any stage, no owner constraint, no limit. -/
def OperationFilter.default : OperationFilter :=
  { stages := .Any, worker_id := none, limit := none }

/-- Modelled from the spec: the `ClientStateManager` collaborator contract;
`filter_operations` either fails or yields a finite sequence of result
handles, embedded as the list of its elements in yield order. -/
structure ClientStateManager where
  filter_operations : OperationFilter → Except String (List ActionStateResult)

/-- Embeds `WorkerInfo` from `monitoring_server.rs` (lines 39-50): the
monitoring API format of a worker entry. -/
structure WorkerInfo where
  id : String
  platform_properties : List (String × String)
  last_update_timestamp : Nat
  is_paused : Bool
  is_draining : Bool
  can_accept_work : Bool
  running_operations : List String
  connected_timestamp : Nat
  actions_completed : Nat

/-- Embeds `OperationInfo` from `monitoring_server.rs` (lines 52-66). -/
structure OperationInfo where
  client_operation_id : String
  stage : String
  worker_id : Option String
  action_digest : String
  command_digest : String
  input_root_digest : String
  priority : Int
  timeout : Nat
  platform_properties : List (String × String)
  load_timestamp : Nat
  insert_timestamp : Nat
  is_finished : Bool

/-- Embeds `SchedulerStatus` from `monitoring_server.rs` (lines 68-79). -/
structure SchedulerStatus where
  total_workers : Nat
  active_workers : Nat
  paused_workers : Nat
  draining_workers : Nat
  total_operations : Nat
  queued_operations : Nat
  executing_operations : Nat
  completed_operations : Nat
  uptime_seconds : Nat

/-- Embeds the JSON shape built by `get_scheduler_metrics`
(`monitoring_server.rs` lines 368-382). -/
structure SchedulerMetrics where
  workers_total : Nat
  workers_active : Nat
  workers_paused : Nat
  workers_draining : Nat
  operations_total : Nat
  operations_queued : Nat
  operations_executing : Nat
  operations_completed : Nat
  uptime_seconds : Nat

/-- Embeds `OperationQuery` from `monitoring_server.rs` (lines 88-93). -/
structure OperationQuery where
  stage : Option String
  worker_id : Option String
  limit : Option Nat

/-- The two HTTP status codes the monitoring handlers use for errors. -/
inductive StatusCode where
  | NOT_FOUND
  | INTERNAL_SERVER_ERROR
deriving DecidableEq

/-- Outcome of running a fallible Rust computation: it may panic
(an `unwrap()` of `None`), return an error, or return a value. -/
inductive RunResult (ε : Type) (α : Type) where
  | panicked : RunResult ε α
  | err : ε → RunResult ε α
  | ok : α → RunResult ε α
deriving DecidableEq

/-- Embeds `err_tip`: enrich an error's textual description with context. -/
def errTip (e tip : String) : String := e ++ " : " ++ tip

/-- Embeds the loop body of `get_workers_internal` (lines 142-158):
convert one `(WorkerId, WorkerInfo)` pair of the scheduler snapshot into
the monitoring API format, stringifying the ids. -/
def convertWorker (p : String × nativelink_scheduler.WorkerInfo) : WorkerInfo :=
  { id := p.1
  , platform_properties := p.2.platform_properties
  , last_update_timestamp := p.2.last_update_timestamp
  , is_paused := p.2.is_paused
  , is_draining := p.2.is_draining
  , can_accept_work := p.2.can_accept_work
  , running_operations := p.2.running_operations.map (fun op_id => op_id)
  , connected_timestamp := p.2.connected_timestamp
  , actions_completed := p.2.actions_completed }

/-- Embeds `MonitoringServer::get_workers_internal` (lines 131-161). -/
def get_workers_internal (sched : nativelink_scheduler.WorkerScheduler) :
    RunResult String (List WorkerInfo) :=
  match sched.get_all_workers_info with
  | .error e => .err (errTip e "Failed to get workers info")
  | .ok workers_info => .ok (workers_info.map convertWorker)

/-- Embeds lines 169-184 of `get_operations_internal`: build the
`OperationFilter` from the optional query parameters, starting from the
default filter. -/
def buildFilter (query : Option OperationQuery) : OperationFilter :=
  match query with
  | none => OperationFilter.default
  | some q =>
    let f1 :=
      match q.stage with
      | none => OperationFilter.default
      | some s =>
        { OperationFilter.default with
          stages :=
            match s with
            | "queued" => OperationStageFlags.Queued
            | "executing" => OperationStageFlags.Executing
            | "completed" => OperationStageFlags.Completed
            | "cache_check" => OperationStageFlags.CacheCheck
            | _ => OperationStageFlags.Any }
    match q.worker_id with
    | none => f1
    | some w => { f1 with worker_id := some w }

/-- Embeds the `OperationInfo` record expression of lines 211-234: the
entry built from the two views, with `worker_id` taken from
`query.clone().unwrap().worker_id` (line 214). -/
def mkOperationInfo (q : OperationQuery) (st : ActionState) (ai : ActionInfo) :
    OperationInfo :=
  { client_operation_id := st.client_operation_id
  , stage := st.stage.debugRepr
  , worker_id := q.worker_id
  , action_digest := st.action_digest
  , command_digest := ai.command_digest
  , input_root_digest := ai.input_root_digest
  , priority := ai.priority
  , timeout := ai.timeout
  , platform_properties := ai.platform_properties
  , load_timestamp := ai.load_timestamp
  , insert_timestamp := ai.insert_timestamp
  , is_finished := st.stage.is_finished }

/-- Embeds the per-element body of the loop of lines 196-237: retrieve the
two views (each may fail), then build the entry; when `query` is `None`
the `query.clone().unwrap()` on line 214 panics. -/
def processHandle (query : Option OperationQuery) (h : ActionStateResult) :
    RunResult String OperationInfo :=
  match h.as_state with
  | .error e => .err (errTip e "Failed to get action state")
  | .ok st =>
    match h.as_action_info with
    | .error e => .err (errTip e "Failed to get action info")
    | .ok ai =>
      match query with
      | none => .panicked
      | some q => .ok (mkOperationInfo q st ai)

/-- Embeds the `while let` loop of lines 196-237: pull the next stream
element, stop once `count` has reached `limit`, otherwise process the
element and continue. -/
def opsLoop (query : Option OperationQuery) (limit : Nat) :
    List ActionStateResult → Nat → RunResult String (List OperationInfo)
  | [], _ => .ok []
  | h :: rest, count =>
    if limit ≤ count then .ok []
    else
      match processHandle query h with
      | .panicked => .panicked
      | .err e => .err e
      | .ok info =>
        match opsLoop query limit rest (count + 1) with
        | .panicked => .panicked
        | .err e => .err e
        | .ok tail => .ok (info :: tail)

/-- Embeds `MonitoringServer::get_operations_internal` (lines 163-240):
build the filter, fetch the stream from the state manager, then drain it
under the limit `query.limit` defaulting to 1000 (line 194). -/
def get_operations_internal (mgr : ClientStateManager)
    (query : Option OperationQuery) : RunResult String (List OperationInfo) :=
  match mgr.filter_operations (buildFilter query) with
  | .error e => .err (errTip e "Failed to filter operations")
  | .ok stream =>
    opsLoop query ((query.bind (fun q => q.limit)).getD 1000) stream 0

/-- Embeds lines 251-277 of `get_scheduler_status_internal`: the pure
counting over the two fetched vectors. -/
def statusFromParts (workers : List WorkerInfo) (operations : List OperationInfo)
    (now start_time : Nat) : SchedulerStatus :=
  { total_workers := workers.length
  , active_workers := (workers.filter (fun w => w.can_accept_work)).length
  , paused_workers := (workers.filter (fun w => w.is_paused)).length
  , draining_workers := (workers.filter (fun w => w.is_draining)).length
  , total_operations := operations.length
  , queued_operations :=
      (operations.filter (fun op => !op.is_finished && op.worker_id.isNone)).length
  , executing_operations :=
      (operations.filter (fun op => !op.is_finished && op.worker_id.isSome)).length
  , completed_operations := (operations.filter (fun op => op.is_finished)).length
  , uptime_seconds := now - start_time }

/-- Embeds `MonitoringServer::get_scheduler_status_internal`
(lines 242-278): fetch both snapshots (passing no operations query) and
count. -/
def get_scheduler_status_internal (sched : nativelink_scheduler.WorkerScheduler)
    (mgr : ClientStateManager) (now start_time : Nat) :
    RunResult String SchedulerStatus :=
  match get_workers_internal sched with
  | .panicked => .panicked
  | .err e => .err e
  | .ok workers =>
    match get_operations_internal mgr none with
    | .panicked => .panicked
    | .err e => .err e
    | .ok operations => .ok (statusFromParts workers operations now start_time)

/-- Embeds the route handler `get_workers` (lines 281-291). -/
def get_workers (sched : nativelink_scheduler.WorkerScheduler) :
    RunResult (StatusCode × String) (List WorkerInfo) :=
  match get_workers_internal sched with
  | .panicked => .panicked
  | .err e => .err (.INTERNAL_SERVER_ERROR, e)
  | .ok workers => .ok workers

/-- Embeds the route handler `get_worker` (lines 293-311). -/
def get_worker (sched : nativelink_scheduler.WorkerScheduler)
    (worker_id : String) : RunResult (StatusCode × String) WorkerInfo :=
  match get_workers_internal sched with
  | .panicked => .panicked
  | .err e => .err (.INTERNAL_SERVER_ERROR, e)
  | .ok workers =>
    match workers.find? (fun w => w.id == worker_id) with
    | some w => .ok w
    | none => .err (.NOT_FOUND, "Worker " ++ worker_id ++ " not found")

/-- Embeds the route handler `get_operations` (lines 313-324); the axum
`Query` extractor always supplies an `OperationQuery` (with `None` fields
when parameters are absent), so the internal call receives `Some`. -/
def get_operations (mgr : ClientStateManager) (query : OperationQuery) :
    RunResult (StatusCode × String) (List OperationInfo) :=
  match get_operations_internal mgr (some query) with
  | .panicked => .panicked
  | .err e => .err (.INTERNAL_SERVER_ERROR, e)
  | .ok operations => .ok operations

/-- Embeds the route handler `get_operation` (lines 326-344); it calls
`get_operations_internal` with no query at all. -/
def get_operation (mgr : ClientStateManager) (operation_id : String) :
    RunResult (StatusCode × String) OperationInfo :=
  match get_operations_internal mgr none with
  | .panicked => .panicked
  | .err e => .err (.INTERNAL_SERVER_ERROR, e)
  | .ok operations =>
    match operations.find? (fun op => op.client_operation_id == operation_id) with
    | some op => .ok op
    | none => .err (.NOT_FOUND, "Operation " ++ operation_id ++ " not found")

/-- Embeds the route handler `get_scheduler_status` (lines 346-356). -/
def get_scheduler_status (sched : nativelink_scheduler.WorkerScheduler)
    (mgr : ClientStateManager) (now start_time : Nat) :
    RunResult (StatusCode × String) SchedulerStatus :=
  match get_scheduler_status_internal sched mgr now start_time with
  | .panicked => .panicked
  | .err e => .err (.INTERNAL_SERVER_ERROR, e)
  | .ok status => .ok status

/-- Embeds the route handler `get_scheduler_metrics` (lines 358-385):
the same status rearranged into the metrics JSON shape. -/
def get_scheduler_metrics (sched : nativelink_scheduler.WorkerScheduler)
    (mgr : ClientStateManager) (now start_time : Nat) :
    RunResult (StatusCode × String) SchedulerMetrics :=
  match get_scheduler_status_internal sched mgr now start_time with
  | .panicked => .panicked
  | .err e => .err (.INTERNAL_SERVER_ERROR, e)
  | .ok status =>
    .ok { workers_total := status.total_workers
        , workers_active := status.active_workers
        , workers_paused := status.paused_workers
        , workers_draining := status.draining_workers
        , operations_total := status.total_operations
        , operations_queued := status.queued_operations
        , operations_executing := status.executing_operations
        , operations_completed := status.completed_operations
        , uptime_seconds := status.uptime_seconds }

/-- The worker list actually fetched by the worker routes (empty when the
scheduler query fails). -/
def fetchedWorkers (sched : nativelink_scheduler.WorkerScheduler) :
    List WorkerInfo :=
  match get_workers_internal sched with
  | .ok ws => ws
  | _ => []

/-- The operation list actually fetched by the single-operation route
(empty when fetching fails or panics). -/
def fetchedOperations (mgr : ClientStateManager) : List OperationInfo :=
  match get_operations_internal mgr none with
  | .ok ops => ops
  | _ => []

/-- A state manager whose stream is cut to its first 1000 elements; used
to state that elements past the first 1000 are never observed. -/
def truncate1000 (mgr : ClientStateManager) : ClientStateManager :=
  { filter_operations := fun f =>
      Except.map (fun l => l.take 1000) (mgr.filter_operations f) }

/-! Concrete fixtures used by witnesses and counterexamples. -/

/-- A concrete current-state view: "op1" is Executing, owned by "w1". -/
def stA : ActionState :=
  { client_operation_id := "op1"
  , stage := .Executing
  , worker_id := some "w1"
  , action_digest := "ad1"
  , load_timestamp := 5
  , insert_timestamp := 6 }

/-- A concrete static-info view for the same operation. -/
def aiA : ActionInfo :=
  { command_digest := "cd1"
  , input_root_digest := "ird1"
  , priority := 7
  , timeout := 30
  , platform_properties := [("arch", "x86")]
  , load_timestamp := 11
  , insert_timestamp := 12 }

/-- A concrete result handle whose two views both succeed. -/
def handleA : ActionStateResult := { as_state := .ok stA, as_action_info := .ok aiA }

/-- A state manager that yields exactly one operation handle. -/
def mgrOne : ClientStateManager := { filter_operations := fun _ => .ok [handleA] }

/-- A state manager that yields no operations. -/
def mgrEmpty : ClientStateManager := { filter_operations := fun _ => .ok [] }

/-- A state manager whose filter query fails. -/
def mgrBoom : ClientStateManager := { filter_operations := fun _ => .error "boom" }

/-- A worker-info snapshot entry that can accept work. -/
def wiActive : nativelink_scheduler.WorkerInfo :=
  { platform_properties := [("arch", "x86")]
  , last_update_timestamp := 90
  , is_paused := false
  , is_draining := false
  , can_accept_work := true
  , running_operations := ["op1"]
  , connected_timestamp := 10
  , actions_completed := 3 }

/-- A worker-info snapshot entry that is paused and draining. -/
def wiPaused : nativelink_scheduler.WorkerInfo :=
  { platform_properties := []
  , last_update_timestamp := 91
  , is_paused := true
  , is_draining := true
  , can_accept_work := false
  , running_operations := []
  , connected_timestamp := 20
  , actions_completed := 0 }

/-- A concrete two-worker snapshot. -/
def pairs2 : List (String × nativelink_scheduler.WorkerInfo) :=
  [("w1", wiActive), ("w2", wiPaused)]

/-- A scheduler whose snapshot query returns the two workers above. -/
def schedTwo : nativelink_scheduler.WorkerScheduler :=
  { get_all_workers_info := .ok pairs2 }

/-- A scheduler whose snapshot query fails. -/
def schedBoom : nativelink_scheduler.WorkerScheduler :=
  { get_all_workers_info := .error "sboom" }

/-- The query produced by a request with no query parameters. -/
def qEmpty : OperationQuery := { stage := none, worker_id := none, limit := none }

/-- A query with a worker_id filter and a limit of 1. -/
def q1 : OperationQuery := { stage := none, worker_id := some "w9", limit := some 1 }

/-- The entry the operations route builds from `handleA` under `qEmpty`. -/
def infoA0 : OperationInfo :=
  { client_operation_id := "op1"
  , stage := "Executing"
  , worker_id := none
  , action_digest := "ad1"
  , command_digest := "cd1"
  , input_root_digest := "ird1"
  , priority := 7
  , timeout := 30
  , platform_properties := [("arch", "x86")]
  , load_timestamp := 11
  , insert_timestamp := 12
  , is_finished := false }

/-- The entry the operations route builds from `handleA` under `q1`. -/
def info1 : OperationInfo :=
  { client_operation_id := "op1"
  , stage := "Executing"
  , worker_id := some "w9"
  , action_digest := "ad1"
  , command_digest := "cd1"
  , input_root_digest := "ird1"
  , priority := 7
  , timeout := 30
  , platform_properties := [("arch", "x86")]
  , load_timestamp := 11
  , insert_timestamp := 12
  , is_finished := false }

/-- The status computed from `schedTwo` and `mgrEmpty` at now 100, start 40. -/
def statusVal : SchedulerStatus :=
  { total_workers := 2
  , active_workers := 1
  , paused_workers := 1
  , draining_workers := 1
  , total_operations := 0
  , queued_operations := 0
  , executing_operations := 0
  , completed_operations := 0
  , uptime_seconds := 60 }

example : get_operations mgrOne qEmpty = .ok [infoA0] := rfl
example : get_operations mgrOne q1 = .ok [info1] := rfl
example : get_operation mgrOne "op1" = .panicked := rfl
example : get_scheduler_status schedTwo mgrOne 100 40 = .panicked := rfl
example : get_scheduler_metrics schedTwo mgrOne 100 40 = .panicked := rfl
example : get_scheduler_status_internal schedTwo mgrEmpty 100 40 = .ok statusVal := rfl
example : get_worker schedTwo "w2" = .ok (convertWorker ("w2", wiPaused)) := rfl
example : get_worker schedTwo "nope" =
    .err (.NOT_FOUND, "Worker " ++ "nope" ++ " not found") := rfl
example : get_workers schedBoom =
    .err (.INTERNAL_SERVER_ERROR, "sboom : Failed to get workers info") := rfl
example : get_operations mgrBoom qEmpty =
    .err (.INTERNAL_SERVER_ERROR, "boom : Failed to filter operations") := rfl

/-! Helper lemmas about the drain loop and the per-element processing. -/

/-- The drain loop collects at most `limit - count` entries. -/
theorem opsLoop_ok_length_le (q : Option OperationQuery) (L : Nat) :
    ∀ (l : List ActionStateResult) (c : Nat) (ops : List OperationInfo),
      opsLoop q L l c = .ok ops → ops.length ≤ L - c := by
  intro l
  induction l with
  | nil =>
    intro c ops h
    simp only [opsLoop] at h
    cases h
    simp
  | cons hd tl ih =>
    intro c ops h
    simp only [opsLoop] at h
    by_cases hc : L ≤ c
    · rw [if_pos hc] at h
      cases h
      simp
    · rw [if_neg hc] at h
      rcases hph : processHandle q hd with _ | e | info <;> rw [hph] at h
      · cases h
      · cases h
      · rcases hrec : opsLoop q L tl (c + 1) with _ | e | tail <;> rw [hrec] at h
        · cases h
        · cases h
        · cases h
          have htail := ih (c + 1) tail hrec
          simp only [List.length_cons]
          omega

/-- Every entry collected by the drain loop comes from processing some
stream element successfully. -/
theorem opsLoop_ok_mem (q : Option OperationQuery) (L : Nat) :
    ∀ (l : List ActionStateResult) (c : Nat) (ops : List OperationInfo),
      opsLoop q L l c = .ok ops →
      ∀ op, op ∈ ops → ∃ h, h ∈ l ∧ processHandle q h = .ok op := by
  intro l
  induction l with
  | nil =>
    intro c ops hloop op hop
    simp only [opsLoop] at hloop
    cases hloop
    simp at hop
  | cons hd tl ih =>
    intro c ops hloop op hop
    simp only [opsLoop] at hloop
    by_cases hc : L ≤ c
    · rw [if_pos hc] at hloop
      cases hloop
      simp at hop
    · rw [if_neg hc] at hloop
      rcases hph : processHandle q hd with _ | e | info <;> rw [hph] at hloop
      · cases hloop
      · cases hloop
      · rcases hrec : opsLoop q L tl (c + 1) with _ | e | tail <;> rw [hrec] at hloop
        · cases hloop
        · cases hloop
        · cases hloop
          rcases List.mem_cons.mp hop with heq | hmem
          · exact ⟨hd, List.mem_cons_self hd tl, by rw [heq]; exact hph⟩
          · obtain ⟨h, hmem2, hph2⟩ := ih (c + 1) tail hrec op hmem
            exact ⟨h, List.mem_cons_of_mem hd hmem2, hph2⟩

/-- The drain loop never looks past the first `limit - count` stream
elements: truncating the stream there does not change the outcome. -/
theorem opsLoop_take_eq (q : Option OperationQuery) (L : Nat) :
    ∀ (l : List ActionStateResult) (c : Nat),
      opsLoop q L l c = opsLoop q L (l.take (L - c)) c := by
  intro l
  induction l with
  | nil => intro c; rw [List.take_nil]
  | cons hd tl ih =>
    intro c
    by_cases hc : L ≤ c
    · have h0 : L - c = 0 := Nat.sub_eq_zero_of_le hc
      rw [h0, List.take_zero]
      simp only [opsLoop]
      rw [if_pos hc]
    · have hsub : L - c = (L - (c + 1)) + 1 := by omega
      rw [hsub, List.take_succ_cons]
      simp only [opsLoop]
      rw [if_neg hc, if_neg hc]
      rcases processHandle q hd with _ | e | info
      · rfl
      · rfl
      · rw [ih (c + 1)]

/-- Successful processing of one element under a supplied query retrieves
both views and builds the entry from them. -/
theorem processHandle_some_ok (q : OperationQuery) (h : ActionStateResult)
    (op : OperationInfo) (hph : processHandle (some q) h = .ok op) :
    ∃ st ai, h.as_state = .ok st ∧ h.as_action_info = .ok ai ∧
      op = mkOperationInfo q st ai := by
  simp only [processHandle] at hph
  rcases hst : h.as_state with e | st <;> rw [hst] at hph
  · cases hph
  · rcases hai : h.as_action_info with e2 | ai <;> rw [hai] at hph
    · cases hph
    · cases hph
      exact ⟨st, ai, rfl, rfl, rfl⟩

/-- The three operation predicates used by the status computation
partition any list of operation entries. -/
theorem operations_filter_partition (ops : List OperationInfo) :
    (ops.filter (fun op => !op.is_finished && op.worker_id.isNone)).length
      + (ops.filter (fun op => !op.is_finished && op.worker_id.isSome)).length
      + (ops.filter (fun op => op.is_finished)).length = ops.length := by
  induction ops with
  | nil => simp
  | cons op rest ih =>
    rcases hfin : op.is_finished <;> rcases hw : op.worker_id with _ | w <;>
      simp [List.filter_cons, hfin, hw] <;> omega

/-! Claim theorems. -/

/-- C1 (code_bug evidence): the claim says no monitoring handler ever
panics, on any input the state manager yields. The code refutes it: with a
state manager that yields at least one operation, the single-operation,
scheduler-status and metrics handlers all panic, because they call
`get_operations_internal` with no query and line 214 then evaluates
`query.clone().unwrap()` on `None`. -/
theorem monitoring_handlers_panic_with_none_query :
    get_operation mgrOne "absent-id" = .panicked
  ∧ get_scheduler_status schedTwo mgrOne 100 40 = .panicked
  ∧ get_scheduler_metrics schedTwo mgrOne 100 40 = .panicked :=
  ⟨rfl, rfl, rfl⟩

/-- C3 (code_bug evidence): the claim says the single-operation lookup
returns the operation's info whenever an operation with the requested
client_operation_id exists in the state manager. Here "op1" exists — the
only yielded handle's state view names it — yet `get_operation` panics
instead of returning its info, because its internal call passes no query
and line 214 unwraps `None`. -/
theorem get_operation_panics_when_operation_exists :
    mgrOne.filter_operations (buildFilter none) = .ok [handleA]
  ∧ handleA.as_state = .ok stA
  ∧ stA.client_operation_id = "op1"
  ∧ get_operation mgrOne "op1" = .panicked :=
  ⟨rfl, rfl, rfl, rfl⟩

/-- C2 counterexample: at a concrete input the operations route returns an
entry whose worker_id is `none` although the handle's state view records
the owner "w1", and whose load timestamp is the static-info view's value
(11), not the state view's (5) — so the claim that worker_id and the
timestamps come from the current-state view is false. -/
theorem operation_response_worker_id_not_from_state_view :
    get_operations mgrOne qEmpty = .ok [infoA0]
  ∧ handleA.as_state = .ok stA
  ∧ handleA.as_action_info = .ok aiA
  ∧ stA.worker_id = some "w1"
  ∧ infoA0.worker_id = none
  ∧ infoA0.worker_id ≠ stA.worker_id
  ∧ stA.load_timestamp = 5
  ∧ aiA.load_timestamp = 11
  ∧ infoA0.load_timestamp = 11
  ∧ infoA0.load_timestamp ≠ stA.load_timestamp :=
  ⟨rfl, rfl, rfl, rfl, rfl, by decide, rfl, rfl, rfl, by decide⟩

/-- C2 (amended): for every entry returned by the operations route, the
client operation id, stage string, action digest and finished flag come
from the handle's current-state view; the command/input digests, priority,
timeout, platform properties and the load/insert timestamps come from its
static-info view; and the worker_id field echoes the query's worker_id
filter rather than the state view's owner. -/
theorem operation_response_field_provenance
    (mgr : ClientStateManager) (q : OperationQuery)
    (ops : List OperationInfo) (op : OperationInfo)
    (hok : get_operations_internal mgr (some q) = .ok ops)
    (hmem : op ∈ ops) :
    ∃ l h st ai,
      mgr.filter_operations (buildFilter (some q)) = .ok l
    ∧ h ∈ l
    ∧ h.as_state = .ok st
    ∧ h.as_action_info = .ok ai
    ∧ op.client_operation_id = st.client_operation_id
    ∧ op.stage = st.stage.debugRepr
    ∧ op.action_digest = st.action_digest
    ∧ op.is_finished = st.stage.is_finished
    ∧ op.command_digest = ai.command_digest
    ∧ op.input_root_digest = ai.input_root_digest
    ∧ op.priority = ai.priority
    ∧ op.timeout = ai.timeout
    ∧ op.platform_properties = ai.platform_properties
    ∧ op.load_timestamp = ai.load_timestamp
    ∧ op.insert_timestamp = ai.insert_timestamp
    ∧ op.worker_id = q.worker_id := by
  simp only [get_operations_internal] at hok
  rcases hf : mgr.filter_operations (buildFilter (some q)) with e | l <;>
    rw [hf] at hok
  · cases hok
  · obtain ⟨h, hmem2, hph⟩ := opsLoop_ok_mem (some q) _ l 0 ops hok op hmem
    obtain ⟨st, ai, hst, hai, hop⟩ := processHandle_some_ok q h op hph
    subst hop
    exact ⟨l, h, st, ai, rfl, hmem2, hst, hai, rfl, rfl, rfl, rfl, rfl, rfl,
      rfl, rfl, rfl, rfl, rfl, rfl⟩

/-- Witness for the amended C2: applied to the concrete manager `mgrOne`
and query `q1`, the returned entry's worker_id is the query's filter, and
its id and load timestamp come from the views of `handleA`. -/
theorem operation_response_field_provenance_witness :
    info1.worker_id = q1.worker_id
  ∧ info1.client_operation_id = stA.client_operation_id
  ∧ info1.load_timestamp = aiA.load_timestamp := by
  obtain ⟨l, h, st, ai, hf, hmem, hst, hai, h1, h2, h3, h4, h5, h6, h7, h8,
    h9, h10, h11, h12⟩ :=
    operation_response_field_provenance mgrOne q1 [info1] info1 rfl
      (List.mem_singleton.mpr rfl)
  have hl : [handleA] = l := Except.ok.inj hf
  subst hl
  have hh : h = handleA := List.mem_singleton.mp hmem
  subst hh
  have hst2 : stA = st := Except.ok.inj hst
  subst hst2
  have hai2 : aiA = ai := Except.ok.inj hai
  subst hai2
  exact ⟨h12, h1, h10⟩

/-- C4: the scheduler-status response is computed purely from the
worker-info snapshot and the fetched operations: total_workers is the
snapshot's length, active/paused/draining count the snapshot's
can_accept_work, is_paused and is_draining flags, total_operations is the
number of fetched operations, and the queued/executing/completed counts
classify each fetched operation by its finished flag and worker_id
presence. -/
theorem scheduler_status_counts_from_snapshots
    (sched : nativelink_scheduler.WorkerScheduler) (mgr : ClientStateManager)
    (now start_time : Nat)
    (pairs : List (String × nativelink_scheduler.WorkerInfo))
    (ops : List OperationInfo) (status : SchedulerStatus)
    (hw : sched.get_all_workers_info = .ok pairs)
    (hops : get_operations_internal mgr none = .ok ops)
    (hstat : get_scheduler_status_internal sched mgr now start_time = .ok status) :
    status.total_workers = pairs.length
  ∧ status.active_workers = pairs.countP (fun p => p.2.can_accept_work)
  ∧ status.paused_workers = pairs.countP (fun p => p.2.is_paused)
  ∧ status.draining_workers = pairs.countP (fun p => p.2.is_draining)
  ∧ status.total_operations = ops.length
  ∧ status.queued_operations
      = ops.countP (fun op => !op.is_finished && op.worker_id.isNone)
  ∧ status.executing_operations
      = ops.countP (fun op => !op.is_finished && op.worker_id.isSome)
  ∧ status.completed_operations = ops.countP (fun op => op.is_finished)
  ∧ status.uptime_seconds = now - start_time := by
  simp only [get_scheduler_status_internal, get_workers_internal, hw, hops] at hstat
  have hs : statusFromParts (pairs.map convertWorker) ops now start_time = status :=
    RunResult.ok.inj hstat
  subst hs
  refine ⟨?_, ?_, ?_, ?_, ?_, ?_, ?_, ?_, ?_⟩ <;>
    simp [statusFromParts, ← List.countP_eq_length_filter, List.countP_map,
      Function.comp_def, convertWorker]

/-- Witness for C4 at the concrete two-worker scheduler and empty state
manager. -/
theorem scheduler_status_counts_witness :
    statusVal.total_workers = pairs2.length
  ∧ statusVal.active_workers = pairs2.countP (fun p => p.2.can_accept_work)
  ∧ statusVal.paused_workers = pairs2.countP (fun p => p.2.is_paused)
  ∧ statusVal.draining_workers = pairs2.countP (fun p => p.2.is_draining)
  ∧ statusVal.total_operations = List.length ([] : List OperationInfo)
  ∧ statusVal.queued_operations
      = List.countP (fun op => !op.is_finished && op.worker_id.isNone)
          ([] : List OperationInfo)
  ∧ statusVal.executing_operations
      = List.countP (fun op => !op.is_finished && op.worker_id.isSome)
          ([] : List OperationInfo)
  ∧ statusVal.completed_operations
      = List.countP (fun op => op.is_finished) ([] : List OperationInfo)
  ∧ statusVal.uptime_seconds = 100 - 40 :=
  scheduler_status_counts_from_snapshots schedTwo mgrEmpty 100 40 pairs2 []
    statusVal rfl rfl rfl

/-- C5: every error outcome of the monitoring handlers is either a
NOT_FOUND response produced exactly when the lookup finds no matching
worker or operation among the fetched entries, or an
INTERNAL_SERVER_ERROR response whose body is the textual description of
the error propagated from the collaborator; no other error outcome
exists. -/
theorem monitoring_error_mapping
    (sched : nativelink_scheduler.WorkerScheduler) (mgr : ClientStateManager)
    (wid oid : String) (q : OperationQuery) (now start_time : Nat)
    (sc : StatusCode) (body : String) :
    (get_workers sched = .err (sc, body) →
       sc = .INTERNAL_SERVER_ERROR ∧ get_workers_internal sched = .err body)
  ∧ (get_worker sched wid = .err (sc, body) →
       (sc = .NOT_FOUND ∧ body = "Worker " ++ wid ++ " not found"
          ∧ (fetchedWorkers sched).find? (fun w => w.id == wid) = none)
     ∨ (sc = .INTERNAL_SERVER_ERROR ∧ get_workers_internal sched = .err body))
  ∧ (get_operations mgr q = .err (sc, body) →
       sc = .INTERNAL_SERVER_ERROR
         ∧ get_operations_internal mgr (some q) = .err body)
  ∧ (get_operation mgr oid = .err (sc, body) →
       (sc = .NOT_FOUND ∧ body = "Operation " ++ oid ++ " not found"
          ∧ (fetchedOperations mgr).find?
              (fun op => op.client_operation_id == oid) = none)
     ∨ (sc = .INTERNAL_SERVER_ERROR ∧ get_operations_internal mgr none = .err body))
  ∧ (get_scheduler_status sched mgr now start_time = .err (sc, body) →
       sc = .INTERNAL_SERVER_ERROR
         ∧ get_scheduler_status_internal sched mgr now start_time = .err body)
  ∧ (get_scheduler_metrics sched mgr now start_time = .err (sc, body) →
       sc = .INTERNAL_SERVER_ERROR
         ∧ get_scheduler_status_internal sched mgr now start_time = .err body) := by
  refine ⟨?_, ?_, ?_, ?_, ?_, ?_⟩
  · intro h
    simp only [get_workers] at h
    rcases hi : get_workers_internal sched with _ | e | ws <;> simp only [hi] at h
    · cases h
    · obtain ⟨hsc, hbody⟩ := Prod.mk.inj (RunResult.err.inj h)
      exact ⟨hsc.symm, by rw [hbody]⟩
    · cases h
  · intro h
    simp only [get_worker] at h
    rcases hi : get_workers_internal sched with _ | e | ws <;> simp only [hi] at h
    · cases h
    · obtain ⟨hsc, hbody⟩ := Prod.mk.inj (RunResult.err.inj h)
      exact Or.inr ⟨hsc.symm, by rw [hbody]⟩
    · rcases hf : ws.find? (fun w => w.id == wid) with _ | w <;> rw [hf] at h
      · obtain ⟨hsc, hbody⟩ := Prod.mk.inj (RunResult.err.inj h)
        have hfw : fetchedWorkers sched = ws := by
          unfold fetchedWorkers
          rw [hi]
        refine Or.inl ⟨hsc.symm, hbody.symm, ?_⟩
        rw [hfw]
        exact hf
      · cases h
  · intro h
    simp only [get_operations] at h
    rcases hi : get_operations_internal mgr (some q) with _ | e | ops <;>
      simp only [hi] at h
    · cases h
    · obtain ⟨hsc, hbody⟩ := Prod.mk.inj (RunResult.err.inj h)
      exact ⟨hsc.symm, by rw [hbody]⟩
    · cases h
  · intro h
    simp only [get_operation] at h
    rcases hi : get_operations_internal mgr none with _ | e | ops <;>
      simp only [hi] at h
    · cases h
    · obtain ⟨hsc, hbody⟩ := Prod.mk.inj (RunResult.err.inj h)
      exact Or.inr ⟨hsc.symm, by rw [hbody]⟩
    · rcases hf : ops.find? (fun op => op.client_operation_id == oid)
        with _ | op <;> rw [hf] at h
      · obtain ⟨hsc, hbody⟩ := Prod.mk.inj (RunResult.err.inj h)
        have hfo : fetchedOperations mgr = ops := by
          unfold fetchedOperations
          rw [hi]
        refine Or.inl ⟨hsc.symm, hbody.symm, ?_⟩
        rw [hfo]
        exact hf
      · cases h
  · intro h
    simp only [get_scheduler_status] at h
    rcases hi : get_scheduler_status_internal sched mgr now start_time
      with _ | e | st <;> simp only [hi] at h
    · cases h
    · obtain ⟨hsc, hbody⟩ := Prod.mk.inj (RunResult.err.inj h)
      exact ⟨hsc.symm, by rw [hbody]⟩
    · cases h
  · intro h
    simp only [get_scheduler_metrics] at h
    rcases hi : get_scheduler_status_internal sched mgr now start_time
      with _ | e | st <;> simp only [hi] at h
    · cases h
    · obtain ⟨hsc, hbody⟩ := Prod.mk.inj (RunResult.err.inj h)
      exact ⟨hsc.symm, by rw [hbody]⟩
    · cases h

/-- Witness for C5: a failing scheduler query maps to an
INTERNAL_SERVER_ERROR whose body is the enriched error description, and an
absent worker id maps to the NOT_FOUND branch. -/
theorem monitoring_error_mapping_witness :
    (StatusCode.INTERNAL_SERVER_ERROR = StatusCode.INTERNAL_SERVER_ERROR
       ∧ get_workers_internal schedBoom
           = .err "sboom : Failed to get workers info")
  ∧ ((StatusCode.NOT_FOUND = StatusCode.NOT_FOUND
        ∧ "Worker nope not found" = "Worker " ++ "nope" ++ " not found"
        ∧ (fetchedWorkers schedTwo).find? (fun w => w.id == "nope") = none)
     ∨ (StatusCode.NOT_FOUND = StatusCode.INTERNAL_SERVER_ERROR
        ∧ get_workers_internal schedTwo = .err "Worker nope not found")) := by
  constructor
  · exact (monitoring_error_mapping schedBoom mgrBoom "w" "op" qEmpty 0 0
      .INTERNAL_SERVER_ERROR "sboom : Failed to get workers info").1 rfl
  · exact (monitoring_error_mapping schedTwo mgrEmpty "nope" "op" qEmpty 0 0
      .NOT_FOUND "Worker nope not found").2.1 rfl

/-- The filter handed to the state manager never carries the limit: the
query's cap is not pushed down. -/
theorem buildFilter_limit_none (query : Option OperationQuery) :
    (buildFilter query).limit = none := by
  rcases query with _ | q
  · rfl
  · simp only [buildFilter]
    rcases q.stage with _ | s <;> rcases q.worker_id with _ | w <;> rfl

/-- C6: for every operations query carrying a limit value n, the
operations route returns at most n entries, and the cap is applied by the
consumer draining the stream — the filter sent to the state manager
carries no limit. -/
theorem operations_limit_cap_consumer_side
    (mgr : ClientStateManager) (q : OperationQuery) (n : Nat)
    (ops : List OperationInfo)
    (hlimit : q.limit = some n)
    (hok : get_operations mgr q = .ok ops) :
    ops.length ≤ n ∧ (buildFilter (some q)).limit = none := by
  constructor
  · simp only [get_operations] at hok
    rcases hi : get_operations_internal mgr (some q) with _ | e | ops2 <;>
      simp only [hi] at hok
    · cases hok
    · cases hok
    · have ho : ops2 = ops := RunResult.ok.inj hok
      subst ho
      simp only [get_operations_internal] at hi
      rcases hf : mgr.filter_operations (buildFilter (some q)) with e | l <;>
        rw [hf] at hi
      · cases hi
      · have hL : ((some q : Option OperationQuery).bind
            (fun q2 => q2.limit)).getD 1000 = n := by
          show (q.limit).getD 1000 = n
          rw [hlimit]
          rfl
        rw [hL] at hi
        have := opsLoop_ok_length_le (some q) n l 0 ops2 hi
        omega
  · exact buildFilter_limit_none (some q)

/-- Witness for C6: with a one-element stream and limit 1 the route
returns one entry, and the filter sent down carries no limit. -/
theorem operations_limit_cap_witness :
    List.length [info1] ≤ 1 ∧ (buildFilter (some q1)).limit = none :=
  operations_limit_cap_consumer_side mgrOne q1 1 [info1] rfl rfl

/-- C7: the worker routes are a stateless projection of the scheduler's
worker snapshot — the list route returns exactly one entry per snapshot
pair with every field preserved (the id stringified), and the
single-worker route returns the entry whose id equals the requested
worker_id, or a NOT_FOUND response when no entry matches. -/
theorem worker_routes_faithful_projection
    (sched : nativelink_scheduler.WorkerScheduler)
    (pairs : List (String × nativelink_scheduler.WorkerInfo))
    (wid : String) (ws : List WorkerInfo)
    (hp : sched.get_all_workers_info = .ok pairs)
    (hws : get_workers sched = .ok ws) :
    ws.length = pairs.length
  ∧ (∀ (j : Nat) (p : String × nativelink_scheduler.WorkerInfo)
       (w : WorkerInfo), pairs[j]? = some p → ws[j]? = some w →
       w.id = p.1
     ∧ w.platform_properties = p.2.platform_properties
     ∧ w.last_update_timestamp = p.2.last_update_timestamp
     ∧ w.is_paused = p.2.is_paused
     ∧ w.is_draining = p.2.is_draining
     ∧ w.can_accept_work = p.2.can_accept_work
     ∧ w.running_operations = p.2.running_operations
     ∧ w.connected_timestamp = p.2.connected_timestamp
     ∧ w.actions_completed = p.2.actions_completed)
  ∧ (∀ w, get_worker sched wid = .ok w → w ∈ ws ∧ w.id = wid)
  ∧ (ws.find? (fun w => w.id == wid) = none →
       get_worker sched wid = .err (.NOT_FOUND, "Worker " ++ wid ++ " not found")) := by
  have hwi : get_workers_internal sched = .ok (pairs.map convertWorker) := by
    simp only [get_workers_internal, hp]
  simp only [get_workers, hwi] at hws
  have hws2 : pairs.map convertWorker = ws := RunResult.ok.inj hws
  subst hws2
  refine ⟨List.length_map _ _, ?_, ?_, ?_⟩
  · intro j p w hpj hwj
    rw [List.getElem?_map, hpj] at hwj
    have hw2 : convertWorker p = w := Option.some.inj hwj
    subst hw2
    refine ⟨rfl, rfl, rfl, rfl, rfl, rfl, ?_, rfl, rfl⟩
    simp [convertWorker]
  · intro w h
    simp only [get_worker, hwi] at h
    rcases hf : (pairs.map convertWorker).find? (fun w2 => w2.id == wid)
      with _ | w0 <;> rw [hf] at h
    · cases h
    · have hw0 : w0 = w := RunResult.ok.inj h
      subst hw0
      have hbeq0 := List.find?_some hf
      have hbeq : (w0.id == wid) = true := hbeq0
      exact ⟨List.mem_of_find?_eq_some hf, eq_of_beq hbeq⟩
  · intro hf
    simp only [get_worker, hwi, hf]

/-- Witness for C7 at the concrete two-worker scheduler: the list route
preserves length, the single-worker route returns the matching entry for
"w2", and an unknown id yields the NOT_FOUND response. -/
theorem worker_routes_projection_witness :
    (pairs2.map convertWorker).length = pairs2.length
  ∧ (convertWorker ("w2", wiPaused) ∈ pairs2.map convertWorker
       ∧ (convertWorker ("w2", wiPaused)).id = "w2")
  ∧ get_worker schedTwo "nope"
      = .err (.NOT_FOUND, "Worker " ++ "nope" ++ " not found") := by
  have h := worker_routes_faithful_projection schedTwo pairs2 "w2"
    (pairs2.map convertWorker) rfl rfl
  have h2 := worker_routes_faithful_projection schedTwo pairs2 "nope"
    (pairs2.map convertWorker) rfl rfl
  exact ⟨h.1, h.2.2.1 (convertWorker ("w2", wiPaused)) rfl, h2.2.2.2 rfl⟩

/-- C8: in every status value the computation produces, the operation
counts partition the total and each worker count is bounded by the worker
total. -/
theorem scheduler_status_partition_and_bounds
    (workers : List WorkerInfo) (ops : List OperationInfo)
    (now start_time : Nat) :
    (statusFromParts workers ops now start_time).queued_operations
      + (statusFromParts workers ops now start_time).executing_operations
      + (statusFromParts workers ops now start_time).completed_operations
      = (statusFromParts workers ops now start_time).total_operations
  ∧ (statusFromParts workers ops now start_time).active_workers
      ≤ (statusFromParts workers ops now start_time).total_workers
  ∧ (statusFromParts workers ops now start_time).paused_workers
      ≤ (statusFromParts workers ops now start_time).total_workers
  ∧ (statusFromParts workers ops now start_time).draining_workers
      ≤ (statusFromParts workers ops now start_time).total_workers := by
  refine ⟨?_, ?_, ?_, ?_⟩
  · exact operations_filter_partition ops
  · exact List.length_filter_le _ workers
  · exact List.length_filter_le _ workers
  · exact List.length_filter_le _ workers

/-- C9: whenever the operations query supplies no limit — in particular
for the queryless internal calls of the single-operation and
scheduler-status handlers — the route collects at most the hard-coded
default of 1000 entries, and its outcome is unchanged if the state
manager's stream is truncated to its first 1000 elements: later elements
are never observed. -/
theorem default_limit_1000_cap_and_truncation
    (mgr : ClientStateManager) (query : Option OperationQuery)
    (ops : List OperationInfo)
    (hnolimit : query.bind (fun q => q.limit) = none) :
    (get_operations_internal mgr query = .ok ops → ops.length ≤ 1000)
  ∧ get_operations_internal mgr query
      = get_operations_internal (truncate1000 mgr) query := by
  have hL : (query.bind (fun q => q.limit)).getD 1000 = 1000 := by
    rw [hnolimit]
    rfl
  constructor
  · intro hok
    simp only [get_operations_internal] at hok
    rcases hf : mgr.filter_operations (buildFilter query) with e | l <;>
      rw [hf] at hok
    · cases hok
    · rw [hL] at hok
      have := opsLoop_ok_length_le query 1000 l 0 ops hok
      omega
  · simp only [get_operations_internal, truncate1000]
    rcases hf : mgr.filter_operations (buildFilter query) with e | l
    · simp only [Except.map]
    · simp only [Except.map]
      rw [hL]
      have := opsLoop_take_eq query 1000 l 0
      simpa using this

/-- Witness for C9: with no query the internal fetch returns at most 1000
entries and is invariant under truncating the stream to 1000 elements. -/
theorem default_limit_cap_witness :
    List.length ([] : List OperationInfo) ≤ 1000
  ∧ get_operations_internal mgrEmpty none
      = get_operations_internal (truncate1000 mgrEmpty) none := by
  have h := default_limit_1000_cap_and_truncation mgrEmpty none [] rfl
  exact ⟨h.1 rfl, h.2⟩

/-- C10: whenever an operations query supplies a worker_id parameter,
every entry of the route's response carries exactly that value in its
worker_id field — the field echoes the request's filter rather than the
operation's state. -/
theorem worker_id_field_echoes_query_filter
    (mgr : ClientStateManager) (q : OperationQuery) (w : String)
    (ops : List OperationInfo) (op : OperationInfo)
    (hw : q.worker_id = some w)
    (hok : get_operations mgr q = .ok ops)
    (hmem : op ∈ ops) :
    op.worker_id = some w := by
  simp only [get_operations] at hok
  rcases hi : get_operations_internal mgr (some q) with _ | e | ops2 <;>
    simp only [hi] at hok
  · cases hok
  · cases hok
  · have ho : ops2 = ops := RunResult.ok.inj hok
    subst ho
    simp only [get_operations_internal] at hi
    rcases hf : mgr.filter_operations (buildFilter (some q)) with e | l <;>
      rw [hf] at hi
    · cases hi
    · obtain ⟨h, hmem2, hph⟩ := opsLoop_ok_mem (some q) _ l 0 ops2 hi op hmem
      obtain ⟨st, ai, hst, hai, hop⟩ := processHandle_some_ok q h op hph
      subst hop
      exact hw

/-- Witness for C10: the single returned entry under query `q1` carries
the query's worker filter "w9". -/
theorem worker_id_echo_witness : info1.worker_id = some "w9" :=
  worker_id_field_echoes_query_filter mgrOne q1 "w9" [info1] info1 rfl rfl
    (List.mem_singleton.mpr rfl)
